import Mathlib

/-!
Verification of the `rust-portaudio-sys` build script (`build.rs`).

The script is sequential glue code: it probes pkg-config for an installed
portaudio, and otherwise downloads a pinned archive, drives the native
configure/make/install (or, on windows, relocates a prebuilt `.lib`), and
prints cargo linker directives.  We embed it as *programs*: lists of
actions (`Act`), produced by functions that mirror the source functions
(`main`, `build`, `unix_platform.download`, ...).  An interpreter `exec`
runs a program over a small filesystem state, aborting at the first
failing subprocess exactly as `run`/`err_to_panic` panic in the source.

Paths are modelled as lists of components; `renderPath` is the string
rendering used where the source passes `out_dir.to_str()` to a command.
-/

/-- A path, as a list of components (the Rust code manipulates `Path`s by
joining components). -/
abbrev FsPath := List String

/-- Render a path the way `Path::to_str` does, with `/` separators. -/
def renderPath (p : FsPath) : String := String.intercalate "/" p

/-- A subprocess invocation: program name and arguments, as built by
`Command::new(prog).arg(..)`. -/
structure Cmd where
  prog : String
  args : List String
deriving DecidableEq, Repr

/-- The debug rendering `format!("{:?}", command)` of a `Command`, used in
the panic message of `run`: each word quoted, space separated. -/
def fmtCmd (c : Cmd) : String :=
  String.intercalate " " ((c.prog :: c.args).map (fun a => "\x22" ++ a ++ "\x22"))

/-- The panic message of `run` on a non-zero exit status. -/
def runFailMsg (c : Cmd) : String :=
  "`" ++ fmtCmd c ++ "` did not execute successfully"

/-- Argument of `env::set_current_dir`: either relative (a single component
or `..`, as in `unix_platform::build`) or absolute (as in the windows
`build`). -/
inductive PathArg
  | rel (c : String)
  | abs (p : FsPath)
deriving DecidableEq, Repr

/-- One action of the build script, in program order. -/
inductive Act
  | runCmd (c : Cmd)
  | chdir (p : PathArg)
  | rename (src dst : FsPath)
  | mkdir (p : FsPath)
  | emit (s : String)
  | detect (name ver : String)
  | pkgcResolve (statik : Bool) (path : FsPath)
deriving DecidableEq, Repr

/-- Process state: current working directory and the set (as a list) of
filesystem paths present. -/
structure St where
  cwd : FsPath
  fs : List FsPath
deriving DecidableEq, Repr

/-- The last `/`-separated segment of a URL: the filename `curl -O` and
`wget` save to.  (Computed by a left fold that restarts at each `/`.) -/
def urlBasename (u : String) : String :=
  String.mk (u.data.foldl (fun acc c => if c == '/' then [] else acc ++ [c]) [])

namespace unix_platform

def PORTAUDIO_URL : String :=
  "http://files.portaudio.com/archives/pa_stable_v190700_20210406.tgz"

def PORTAUDIO_TAR : String := "pa_stable_v190700_20210406.tgz"

def PORTAUDIO_FOLDER : String := "portaudio"

end unix_platform

/-- The paths an `rm -rf` invocation removes, resolved against the current
directory (the `rm -rf` arguments in the source are plain names). -/
def rmTargets (cwd : FsPath) (args : List String) : List FsPath :=
  (args.drop 1).map (fun a => cwd ++ [a])

/-- Whether an `rm -rf` at `cwd` with `args` keeps the file `f`. -/
def rmKeeps (cwd : FsPath) (args : List String) (f : FsPath) : Bool :=
  !((rmTargets cwd args).any (fun t => t.isPrefixOf f))

/-- Modelled from the spec: filesystem effect of the external subprocesses
the script spawns, restricted to the files the spec talks about (the
downloaded archive and the extracted tree).  `curl`/`wget` save the URL
basename into the current directory; `tar xvf` extracts the source tree
folder; `tar -xjf` (windows binary archive) extracts
`Library/lib/portaudio_static.lib`; `rm -rf` removes its targets.
`./configure` and `make` touch only the extracted tree (and the install
prefix), which we do not track further. -/
def cmdEffect (s : St) (c : Cmd) : List FsPath :=
  if c.prog == "curl" || c.prog == "wget" then
    (s.cwd ++ [urlBasename (c.args.headD "")]) :: s.fs
  else if c.prog == "tar" && c.args.headD "" == "xvf" then
    (s.cwd ++ [unix_platform.PORTAUDIO_FOLDER]) :: s.fs
  else if c.prog == "tar" then
    (s.cwd ++ ["Library", "lib", "portaudio_static.lib"]) :: s.fs
  else if c.prog == "rm" then
    s.fs.filter (rmKeeps s.cwd c.args)
  else
    s.fs

/-- One step of the interpreter.  `.inr msg` is the panic raised by `run`
(non-zero exit status) or by `err_to_panic` around the pkg-config
resolution; everything else succeeds.  `ok` says which subprocesses exit
zero; `pc` gives the pkg-config resolution error, if any, per `.pc` path. -/
def stepAct (ok : Cmd → Bool) (pc : FsPath → Option String) (s : St) : Act → St ⊕ String
  | .runCmd c =>
      if ok c then .inl { s with fs := cmdEffect s c } else .inr (runFailMsg c)
  | .chdir (.rel c) =>
      if c == ".." then .inl { s with cwd := s.cwd.dropLast }
      else .inl { s with cwd := s.cwd ++ [c] }
  | .chdir (.abs p) => .inl { s with cwd := p }
  | .rename src dst => .inl { s with fs := dst :: s.fs.filter (fun f => f != src) }
  | .mkdir p => .inl { s with fs := p :: s.fs }
  | .emit _ => .inl s
  | .detect _ _ => .inl s
  | .pkgcResolve _ path =>
      match pc path with
      | none => .inl s
      | some m => .inr m

/-- Result of running a program: the actions that actually ran, the final
state, and the panic message if the process aborted. -/
structure ExecResult where
  executed : List Act
  state : St
  panicMsg : Option String
deriving DecidableEq, Repr

/-- Run a program action by action; the first failure aborts the rest, as a
Rust panic aborts the build script. -/
def exec (ok : Cmd → Bool) (pc : FsPath → Option String) (s : St) : List Act → ExecResult
  | [] => ⟨[], s, none⟩
  | a :: rest =>
    match stepAct ok pc s a with
    | .inr m => ⟨[a], s, some m⟩
    | .inl s2 =>
      let r := exec ok pc s2 rest
      ⟨a :: r.executed, r.state, r.panicMsg⟩

namespace unix_platform

def download_cmd : Cmd := ⟨"curl", [PORTAUDIO_URL, "-O"]⟩

def tar_cmd : Cmd := ⟨"tar", ["xvf", PORTAUDIO_TAR]⟩

def configure_cmd (out : FsPath) : Cmd :=
  ⟨"./configure",
   ["--disable-shared", "--enable-static", "--disable-mac-universal",
    "--prefix", renderPath out, "--with-pic"]⟩

def make_cmd : Cmd := ⟨"make", []⟩

def make_install_cmd : Cmd := ⟨"make", ["install"]⟩

def cleanup_cmd : Cmd := ⟨"rm", ["-rf", PORTAUDIO_TAR, PORTAUDIO_FOLDER]⟩

/-- `unix_platform::download`. -/
def download : List Act := [.runCmd download_cmd]

/-- `unix_platform::build`. -/
def build (out : FsPath) : List Act :=
  [.runCmd tar_cmd,
   .chdir (.rel PORTAUDIO_FOLDER),
   .runCmd (configure_cmd out),
   .runCmd make_cmd,
   .runCmd make_install_cmd,
   .chdir (.rel ".."),
   .runCmd cleanup_cmd]

/-- The single `cargo:rustc-flags=` line of `unix_platform::print_libs`. -/
def flag_string (out : FsPath) : String :=
  "cargo:rustc-flags=-L native=" ++ renderPath out ++
    "/lib -l static=portaudio -l framework=CoreServices -l framework=CoreFoundation -l framework=AudioUnit -l framework=AudioToolbox -l framework=CoreAudio"

/-- `unix_platform::print_libs`. -/
def print_libs (out : FsPath) : List Act := [.emit (flag_string out)]

end unix_platform

namespace linux_platform

def download_cmd : Cmd := ⟨"wget", [unix_platform.PORTAUDIO_URL]⟩

/-- `platform::download` under `cfg(target_os = "linux")`. -/
def download : List Act := [.runCmd download_cmd]

/-- `platform::build` under `cfg(target_os = "linux")`: delegates. -/
def build (out : FsPath) : List Act := unix_platform.build out

/-- The manifest path `out_dir.join("lib/pkgconfig/portaudio-2.0.pc")`. -/
def pc_file (out : FsPath) : FsPath := out ++ ["lib", "pkgconfig", "portaudio-2.0.pc"]

/-- `platform::print_libs` under `cfg(target_os = "linux")`: resolve the
installed manifest through pkg-config (statik), fatally on error. -/
def print_libs (out : FsPath) : List Act := [.pkgcResolve true (pc_file out)]

end linux_platform

namespace windows_platform

def PORTAUDIO_DOWNLOAD_URL : String :=
  "https://anaconda.org/anaconda/portaudio/19.6.0/download/win-64/portaudio-19.6.0-he774522_4.tar.bz2"

def PORTAUDIO_TAR : String := "portaudio-19.6.0-he774522_4.tar.bz2"

def PORTAUDIO_LIB_DIR : String := "portaudio"

def download_cmd : Cmd := ⟨"curl", [PORTAUDIO_DOWNLOAD_URL, "-O", "-s", "-L"]⟩

/-- `platform::download` under `cfg(windows)`. -/
def download : List Act := [.runCmd download_cmd]

def untar_cmd (out : FsPath) : Cmd :=
  ⟨"tar", ["-xjf", renderPath (out ++ [PORTAUDIO_TAR])]⟩

/-- `platform::build` under `cfg(windows)`: move the archive into the out
dir, cd there, extract, and relocate the prebuilt static lib.  `cwd0` is
the `current_dir()` read at entry. -/
def build (cwd0 out : FsPath) : List Act :=
  [.rename (cwd0 ++ [PORTAUDIO_TAR]) (out ++ [PORTAUDIO_TAR]),
   .chdir (.abs out),
   .runCmd (untar_cmd out),
   .mkdir (out ++ [PORTAUDIO_LIB_DIR]),
   .rename (out ++ ["Library", "lib", "portaudio_static.lib"])
           (out ++ [PORTAUDIO_LIB_DIR, "portaudio.lib"])]

/-- `platform::print_libs` under `cfg(windows)`. -/
def print_libs (out : FsPath) : List Act :=
  [.emit ("cargo:rustc-link-search=" ++ renderPath out ++ "/" ++ PORTAUDIO_LIB_DIR)]

end windows_platform

/-- The three compile-time platform configurations of the script: the
`unix_platform` module is `platform` on macOS-like unix, and linux and
windows have their own `platform` modules. -/
inductive Platform
  | macos
  | linux
  | windows
deriving DecidableEq, Repr

def platform_download : Platform → List Act
  | .macos => unix_platform.download
  | .linux => linux_platform.download
  | .windows => windows_platform.download

def platform_build : Platform → FsPath → FsPath → List Act
  | .macos, _, out => unix_platform.build out
  | .linux, _, out => linux_platform.build out
  | .windows, cwd0, out => windows_platform.build cwd0 out

def platform_print_libs : Platform → FsPath → List Act
  | .macos, out => unix_platform.print_libs out
  | .linux, out => linux_platform.print_libs out
  | .windows, out => windows_platform.print_libs out

/-- The path `out_dir.join("lib/libportaudio.a")` whose presence `build`
checks (`fs::metadata`) before downloading and building. -/
def static_lib (out : FsPath) : FsPath := out ++ ["lib", "libportaudio.a"]

/-- The top-level `build` function: skip download+build when the static
library is already present, then print the linker flags.  `fs` is the set
of files present when `fs::metadata` is consulted. -/
def build (p : Platform) (cwd0 out : FsPath) (fs : List FsPath) : List Act :=
  (if fs.contains (static_lib out) then []
   else platform_download p ++ platform_build p cwd0 out)
  ++ platform_print_libs p out

/-- Environment of one invocation: whether `PORTAUDIO_ONLY_STATIC` is set,
whether the pkg-config probe for `portaudio-2.0 >= 19` succeeds, and
`OUT_DIR`. -/
structure Env where
  only_static : Bool
  pkg_config_finds : Bool
  out_dir : FsPath
deriving DecidableEq, Repr

/-- The two `cargo:rerun-if-*` lines printed unconditionally at the top of
`main`. -/
def main_prelude : List Act :=
  [.emit "cargo:rerun-if-changed=build.rs",
   .emit "cargo:rerun-if-env-changed=PORTAUDIO_ONLY_STATIC"]

namespace buildscript

/-- The `main` function of the build script: print the rerun directives;
if `PORTAUDIO_ONLY_STATIC` is unset, probe pkg-config and return early on
success; otherwise fall through to `build`. -/
def main (p : Platform) (e : Env) (cwd0 : FsPath) (fs : List FsPath) : List Act :=
  main_prelude
  ++ (if e.only_static then [] else [.detect "portaudio-2.0" "19"])
  ++ (if !e.only_static && e.pkg_config_finds then []
      else build p cwd0 e.out_dir fs)

end buildscript

/-- An action of the Acquirer: one of the download subprocesses. -/
def Act.isDownloadStep : Act → Bool
  | .runCmd c => c.prog == "curl" || c.prog == "wget"
  | _ => false

/-- An action of the Builder: extraction, configure, make, cleanup,
directory changes and file relocations. -/
def Act.isBuildStep : Act → Bool
  | .runCmd c => c.prog == "tar" || c.prog == "./configure" || c.prog == "make" || c.prog == "rm"
  | .chdir _ => true
  | .rename _ _ => true
  | .mkdir _ => true
  | _ => false

/-- An action that only emits build/linker directives (directly, via the
detection probe, or via the pkg-config resolver). -/
def Act.isFlagEmission : Act → Bool
  | .emit _ => true
  | .detect _ _ => true
  | .pkgcResolve _ _ => true
  | _ => false

/-- The pkg-config detection probe of `main`. -/
def Act.isDetect : Act → Bool
  | .detect _ _ => true
  | _ => false

/-- A direct `println!` of a cargo directive. -/
def Act.isEmit : Act → Bool
  | .emit _ => true
  | _ => false

/-- The Detector succeeds: the probe is performed and pkg-config reports a
matching installed library. -/
def detectorSucceeds (p : Platform) (e : Env) (cwd0 : FsPath) (fs : List FsPath) : Bool :=
  (buildscript.main p e cwd0 fs).any Act.isDetect && e.pkg_config_finds

/-- The Acquirer+Builder run: some download or build action appears in the
program of the invocation. -/
def acquirerBuilderRuns (p : Platform) (e : Env) (cwd0 : FsPath) (fs : List FsPath) : Bool :=
  (buildscript.main p e cwd0 fs).any (fun a => a.isDownloadStep || a.isBuildStep)

/-- Modelled from the spec: the path at which the Builder of each platform
leaves its static library artifact.  On the source-build platforms the
install step belongs to the external autoconf toolchain (`--prefix` plus
`lib/libportaudio.a`, per the filesystem-layout section of the spec); on
windows it is the destination of the final rename in
`windows_platform.build`. -/
def builder_artifact : Platform → FsPath → FsPath
  | .macos, out => out ++ ["lib", "libportaudio.a"]
  | .linux, out => out ++ ["lib", "libportaudio.a"]
  | .windows, out => out ++ [windows_platform.PORTAUDIO_LIB_DIR, "portaudio.lib"]

/-- The `-l static=portaudio` directive. -/
def flag_static : String := "-l static=portaudio"

/-- The five macOS framework names listed in `unix_platform::print_libs`. -/
def framework_names : List String :=
  ["CoreServices", "CoreFoundation", "AudioUnit", "AudioToolbox", "CoreAudio"]

/-- The framework part of the macOS flag line. -/
def framework_flag_string : String :=
  String.intercalate " " (framework_names.map (fun n => "-l framework=" ++ n))

/-- Does the character list `pat` occur contiguously in `l`? -/
def hasSub (pat : List Char) : List Char → Bool
  | [] => pat.isEmpty
  | c :: cs => pat.isPrefixOf (c :: cs) || hasSub pat cs

/-- Does a directive line mention the static library link flag? -/
def mentionsStaticLib (s : String) : Bool :=
  hasSub flag_static.data s.data

/-- Oracle: every subprocess exits zero. -/
def allOk : Cmd → Bool := fun _ => true

/-- Oracle: pkg-config resolution always succeeds. -/
def noneResolve : FsPath → Option String := fun _ => none

/-- Oracle: the configure step fails, everything else exits zero. -/
def configureFails : Cmd → Bool := fun c => c.prog != "./configure"

/-- Oracle: the extraction step fails, everything else exits zero. -/
def tarFails : Cmd → Bool := fun c => c.prog != "tar"

/-- Oracle: pkg-config cannot resolve any manifest. -/
def resolveFails : FsPath → Option String := fun _ => some "portaudio-2.0.pc not found"

/-! ## Helper lemmas -/

theorem isPrefixOf_self (l : List String) : l.isPrefixOf l = true := by
  induction l with
  | nil => rfl
  | cons a t ih => simp [List.isPrefixOf, ih]

theorem not_mem_filter_rmKeeps {x : FsPath} {cwd : FsPath} {args : List String}
    {fs : List FsPath} (h : x ∈ rmTargets cwd args) :
    x ∉ fs.filter (rmKeeps cwd args) := by
  intro hx
  have h2 := (List.mem_filter.mp hx).2
  simp only [rmKeeps, Bool.not_eq_true', List.any_eq_false] at h2
  exact absurd (isPrefixOf_self x) (by simpa using h2 x h)

theorem exec_append_of_none (ok : Cmd → Bool) (pc : FsPath → Option String) (s : St)
    (l1 l2 : List Act) (h : (exec ok pc s l1).panicMsg = none) :
    exec ok pc s (l1 ++ l2) =
      ⟨(exec ok pc s l1).executed ++ (exec ok pc (exec ok pc s l1).state l2).executed,
       (exec ok pc (exec ok pc s l1).state l2).state,
       (exec ok pc (exec ok pc s l1).state l2).panicMsg⟩ := by
  induction l1 generalizing s with
  | nil => simp [exec]
  | cons a t ih =>
    cases hs : stepAct ok pc s a with
    | inr m => simp [exec, hs] at h
    | inl s2 =>
      have h2 : (exec ok pc s2 t).panicMsg = none := by simpa [exec, hs] using h
      simp [exec, hs, ih s2 h2]

/-! ## Claims -/

/-- Claim C1: if the static library artifact already exists at its known path
under the build-output directory, re-invoking the whole process performs no
download step and no build step and only emits linker/build directives. -/
theorem c1_idempotent (p : Platform) (e : Env) (cwd0 : FsPath) (fs : List FsPath)
    (h : fs.contains (static_lib e.out_dir) = true) :
    (buildscript.main p e cwd0 fs).all Act.isFlagEmission = true
    ∧ (buildscript.main p e cwd0 fs).any Act.isDownloadStep = false
    ∧ (buildscript.main p e cwd0 fs).any Act.isBuildStep = false := by
  obtain ⟨os, pf, out⟩ := e
  cases os <;> cases pf <;> cases p <;>
    simp_all [buildscript.main, build, main_prelude, platform_print_libs,
      unix_platform.print_libs, linux_platform.print_libs, windows_platform.print_libs,
      Act.isFlagEmission, Act.isDownloadStep, Act.isBuildStep]

theorem c1_witness :
    (buildscript.main .macos ⟨false, false, ["o"]⟩ ["w"] [static_lib ["o"]]).all Act.isFlagEmission = true
    ∧ (buildscript.main .macos ⟨false, false, ["o"]⟩ ["w"] [static_lib ["o"]]).any Act.isDownloadStep = false
    ∧ (buildscript.main .macos ⟨false, false, ["o"]⟩ ["w"] [static_lib ["o"]]).any Act.isBuildStep = false :=
  c1_idempotent .macos ⟨false, false, ["o"]⟩ ["w"] [static_lib ["o"]] (by decide)

/-- Claim C2 counterexample: with the environment toggle set and the static
library artifact already present, neither does the Detector succeed nor do
the Acquirer and Builder run — refuting "never neither". -/
theorem c2_counterexample :
    detectorSucceeds .macos ⟨true, true, ["o"]⟩ ["w"] [static_lib ["o"]] = false
    ∧ acquirerBuilderRuns .macos ⟨true, true, ["o"]⟩ ["w"] [static_lib ["o"]] = false := by
  decide

/-- Claim C2 (amended): the Detector succeeding and the Acquirer+Builder
running never both occur, and the Acquirer+Builder run exactly when the
Detector does not succeed and the static library artifact is not already
present (so neither occurs precisely on an idempotent re-entry). -/
theorem c2_exclusive_choice (p : Platform) (e : Env) (cwd0 : FsPath) (fs : List FsPath) :
    (detectorSucceeds p e cwd0 fs && acquirerBuilderRuns p e cwd0 fs) = false
    ∧ acquirerBuilderRuns p e cwd0 fs =
        (!detectorSucceeds p e cwd0 fs && !fs.contains (static_lib e.out_dir)) := by
  obtain ⟨os, pf, out⟩ := e
  cases os <;> cases pf <;> cases p <;>
    cases hc : fs.contains (static_lib out) <;>
    simp_all [detectorSucceeds, acquirerBuilderRuns, buildscript.main, build, main_prelude,
      platform_download, platform_build, platform_print_libs,
      unix_platform.download, unix_platform.build, unix_platform.print_libs,
      linux_platform.download, linux_platform.build, linux_platform.print_libs,
      windows_platform.download, windows_platform.build, windows_platform.print_libs,
      unix_platform.download_cmd, linux_platform.download_cmd, windows_platform.download_cmd,
      Act.isDetect, Act.isDownloadStep, Act.isBuildStep]

/-- Claim C3: when `PORTAUDIO_ONLY_STATIC` is set, no pkg-config detection
probe occurs and the process goes straight to `build` (the Acquirer/Builder
path), whatever the system registry would have reported. -/
theorem c3_toggle_skips_detection (p : Platform) (e : Env) (cwd0 : FsPath) (fs : List FsPath)
    (h : e.only_static = true) :
    (buildscript.main p e cwd0 fs).any Act.isDetect = false
    ∧ buildscript.main p e cwd0 fs = main_prelude ++ build p cwd0 e.out_dir fs := by
  obtain ⟨os, pf, out⟩ := e
  cases h
  refine ⟨?_, by simp [buildscript.main]⟩
  cases p <;> cases hc : fs.contains (static_lib out) <;>
    simp_all [buildscript.main, build, main_prelude, platform_download, platform_build,
      platform_print_libs, unix_platform.download, unix_platform.build,
      unix_platform.print_libs, linux_platform.download, linux_platform.build,
      linux_platform.print_libs, windows_platform.download, windows_platform.build,
      windows_platform.print_libs, Act.isDetect]

theorem c3_witness :
    (buildscript.main .macos ⟨true, true, ["o"]⟩ ["w"] []).any Act.isDetect = false
    ∧ buildscript.main .macos ⟨true, true, ["o"]⟩ ["w"] [] =
        main_prelude ++ build .macos ["w"] ["o"] [] :=
  c3_toggle_skips_detection .macos ⟨true, true, ["o"]⟩ ["w"] [] rfl

/-- Claim C4 counterexample: on windows the completion marker checked by
`build` is `<out>/lib/libportaudio.a`, which is not the path the windows
Builder writes (`<out>/portaudio/portaudio.lib`); consequently, even with
the windows artifact present from a prior run, `build` downloads again. -/
theorem c4_counterexample :
    static_lib ["o"] ≠ builder_artifact .windows ["o"]
    ∧ (build .windows ["w"] ["o"] [builder_artifact .windows ["o"]]).any Act.isDownloadStep = true := by
  decide

/-- Claim C4 (amended): the completion marker path equals the Builder
artifact path on the source-build platforms, but on windows the marker is
`<out>/lib/libportaudio.a` while the Builder writes
`<out>/portaudio/portaudio.lib`, so the marker never matches the artifact
the windows Builder produces. -/
theorem c4_marker_vs_artifact (out : FsPath) :
    static_lib out = builder_artifact .macos out
    ∧ static_lib out = builder_artifact .linux out
    ∧ static_lib out ≠ builder_artifact .windows out := by
  refine ⟨rfl, rfl, ?_⟩
  simp [static_lib, builder_artifact, windows_platform.PORTAUDIO_LIB_DIR]

/-- Claim C5: on source-archive platforms the Builder performs, in order:
unpack the tarball, change into the extracted directory, configure with the
static-only / PIC / install-prefix flags, make, make install, return to the
original working directory, and delete the extracted tree and the archive;
under an all-successful oracle the interpreter runs exactly these steps,
ends back in the original directory, and leaves neither the extracted tree
nor the archive on disk. -/
theorem c5_unix_build_sequence (ok : Cmd → Bool) (pc : FsPath → Option String)
    (out cwd0 : FsPath) (fs0 : List FsPath)
    (htar : ok unix_platform.tar_cmd = true)
    (hconf : ok (unix_platform.configure_cmd out) = true)
    (hmake : ok unix_platform.make_cmd = true)
    (hinst : ok unix_platform.make_install_cmd = true)
    (hclean : ok unix_platform.cleanup_cmd = true) :
    unix_platform.build out =
      [.runCmd unix_platform.tar_cmd,
       .chdir (.rel unix_platform.PORTAUDIO_FOLDER),
       .runCmd (unix_platform.configure_cmd out),
       .runCmd unix_platform.make_cmd,
       .runCmd unix_platform.make_install_cmd,
       .chdir (.rel ".."),
       .runCmd unix_platform.cleanup_cmd]
    ∧ (unix_platform.configure_cmd out).args =
        ["--disable-shared", "--enable-static", "--disable-mac-universal",
         "--prefix", renderPath out, "--with-pic"]
    ∧ (exec ok pc ⟨cwd0, fs0⟩ (unix_platform.build out)).executed = unix_platform.build out
    ∧ (exec ok pc ⟨cwd0, fs0⟩ (unix_platform.build out)).panicMsg = none
    ∧ (exec ok pc ⟨cwd0, fs0⟩ (unix_platform.build out)).state.cwd = cwd0
    ∧ (cwd0 ++ [unix_platform.PORTAUDIO_FOLDER]) ∉
        (exec ok pc ⟨cwd0, fs0⟩ (unix_platform.build out)).state.fs
    ∧ (cwd0 ++ [unix_platform.PORTAUDIO_TAR]) ∉
        (exec ok pc ⟨cwd0, fs0⟩ (unix_platform.build out)).state.fs := by
  have key : exec ok pc ⟨cwd0, fs0⟩ (unix_platform.build out) =
      ⟨unix_platform.build out,
       ⟨cwd0, ((cwd0 ++ [unix_platform.PORTAUDIO_FOLDER]) :: fs0).filter
          (rmKeeps cwd0 ["-rf", unix_platform.PORTAUDIO_TAR, unix_platform.PORTAUDIO_FOLDER])⟩,
       none⟩ := by
    simp only [unix_platform.build, unix_platform.tar_cmd, unix_platform.configure_cmd,
      unix_platform.make_cmd, unix_platform.make_install_cmd, unix_platform.cleanup_cmd,
      unix_platform.PORTAUDIO_FOLDER, unix_platform.PORTAUDIO_TAR]
      at htar hconf hmake hinst hclean ⊢
    simp [exec, stepAct, cmdEffect, htar, hconf, hmake, hinst, hclean,
      unix_platform.PORTAUDIO_FOLDER, unix_platform.PORTAUDIO_TAR]
  refine ⟨rfl, rfl, by rw [key], by rw [key], by rw [key], ?_, ?_⟩
  · rw [key]
    exact not_mem_filter_rmKeeps
      (by simp [rmTargets, unix_platform.PORTAUDIO_TAR, unix_platform.PORTAUDIO_FOLDER])
  · rw [key]
    exact not_mem_filter_rmKeeps
      (by simp [rmTargets, unix_platform.PORTAUDIO_TAR, unix_platform.PORTAUDIO_FOLDER])

theorem c5_witness :
    unix_platform.build ["o"] =
      [.runCmd unix_platform.tar_cmd,
       .chdir (.rel unix_platform.PORTAUDIO_FOLDER),
       .runCmd (unix_platform.configure_cmd ["o"]),
       .runCmd unix_platform.make_cmd,
       .runCmd unix_platform.make_install_cmd,
       .chdir (.rel ".."),
       .runCmd unix_platform.cleanup_cmd]
    ∧ (unix_platform.configure_cmd ["o"]).args =
        ["--disable-shared", "--enable-static", "--disable-mac-universal",
         "--prefix", renderPath ["o"], "--with-pic"]
    ∧ (exec allOk noneResolve ⟨["w"], []⟩ (unix_platform.build ["o"])).executed = unix_platform.build ["o"]
    ∧ (exec allOk noneResolve ⟨["w"], []⟩ (unix_platform.build ["o"])).panicMsg = none
    ∧ (exec allOk noneResolve ⟨["w"], []⟩ (unix_platform.build ["o"])).state.cwd = ["w"]
    ∧ (["w"] ++ [unix_platform.PORTAUDIO_FOLDER]) ∉
        (exec allOk noneResolve ⟨["w"], []⟩ (unix_platform.build ["o"])).state.fs
    ∧ (["w"] ++ [unix_platform.PORTAUDIO_TAR]) ∉
        (exec allOk noneResolve ⟨["w"], []⟩ (unix_platform.build ["o"])).state.fs :=
  c5_unix_build_sequence allOk noneResolve ["o"] ["w"] [] rfl rfl rfl rfl rfl

/-- Claim C6: whenever a subprocess in any program exits non-zero (after a
successfully executed preceding program), the whole run aborts on the spot
with a message identifying the failing command: nothing after the failing
command executes, the state is left as it was, and the panic message embeds
the rendering of the command. -/
theorem c6_subprocess_failure_fatal (ok : Cmd → Bool) (pc : FsPath → Option String)
    (s : St) (l1 l2 : List Act) (c : Cmd)
    (h1 : (exec ok pc s l1).panicMsg = none) (h2 : ok c = false) :
    exec ok pc s (l1 ++ .runCmd c :: l2) =
      ⟨(exec ok pc s l1).executed ++ [.runCmd c], (exec ok pc s l1).state,
       some (runFailMsg c)⟩ := by
  rw [exec_append_of_none ok pc s l1 (.runCmd c :: l2) h1]
  simp [exec, stepAct, h2]

theorem c6_witness :
    exec tarFails noneResolve ⟨["w"], []⟩
        (unix_platform.download ++ .runCmd unix_platform.tar_cmd ::
          [.chdir (.rel unix_platform.PORTAUDIO_FOLDER),
           .runCmd (unix_platform.configure_cmd ["o"]),
           .runCmd unix_platform.make_cmd,
           .runCmd unix_platform.make_install_cmd,
           .chdir (.rel ".."),
           .runCmd unix_platform.cleanup_cmd]) =
      ⟨(exec tarFails noneResolve ⟨["w"], []⟩ unix_platform.download).executed ++
         [.runCmd unix_platform.tar_cmd],
       (exec tarFails noneResolve ⟨["w"], []⟩ unix_platform.download).state,
       some (runFailMsg unix_platform.tar_cmd)⟩ :=
  c6_subprocess_failure_fatal tarFails noneResolve ⟨["w"], []⟩ unix_platform.download
    [.chdir (.rel unix_platform.PORTAUDIO_FOLDER),
     .runCmd (unix_platform.configure_cmd ["o"]),
     .runCmd unix_platform.make_cmd,
     .runCmd unix_platform.make_install_cmd,
     .chdir (.rel ".."),
     .runCmd unix_platform.cleanup_cmd]
    unix_platform.tar_cmd (by decide) (by decide)

theorem urlBasename_unix :
    urlBasename "http://files.portaudio.com/archives/pa_stable_v190700_20210406.tgz" =
      "pa_stable_v190700_20210406.tgz" := by decide

theorem urlBasename_win :
    urlBasename "https://anaconda.org/anaconda/portaudio/19.6.0/download/win-64/portaudio-19.6.0-he774522_4.tar.bz2" =
      "portaudio-19.6.0-he774522_4.tar.bz2" := by decide

/-- Claim C7 counterexample: on windows, a fully successful download+build
run terminates normally with the downloaded archive still on disk (moved
into the build-output directory), refuting "deleted on every platform". -/
theorem c7_counterexample :
    (exec allOk noneResolve ⟨["w"], []⟩
        (windows_platform.download ++ windows_platform.build ["w"] ["o"])).panicMsg = none
    ∧ (["o"] ++ [windows_platform.PORTAUDIO_TAR]) ∈
        (exec allOk noneResolve ⟨["w"], []⟩
          (windows_platform.download ++ windows_platform.build ["w"] ["o"])).state.fs := by
  constructor
  · decide
  · decide

/-- Claim C7 (amended): after a successful acquisition-and-build run the
downloaded archive is deleted on the source-archive platforms (macOS and
linux), but on windows it is relocated to the build-output directory and
remains on disk. -/
theorem c7_archive_transient (pc : FsPath → Option String) (cwd0 out : FsPath)
    (fs0 : List FsPath) :
    (cwd0 ++ [unix_platform.PORTAUDIO_TAR]) ∉
      (exec allOk pc ⟨cwd0, fs0⟩ (unix_platform.download ++ unix_platform.build out)).state.fs
    ∧ (cwd0 ++ [unix_platform.PORTAUDIO_TAR]) ∉
      (exec allOk pc ⟨cwd0, fs0⟩ (linux_platform.download ++ linux_platform.build out)).state.fs
    ∧ (out ++ [windows_platform.PORTAUDIO_TAR]) ∈
      (exec allOk pc ⟨cwd0, fs0⟩
        (windows_platform.download ++ windows_platform.build cwd0 out)).state.fs
    ∧ (exec allOk pc ⟨cwd0, fs0⟩
        (windows_platform.download ++ windows_platform.build cwd0 out)).panicMsg = none := by
  refine ⟨?_, ?_, ?_, ?_⟩
  · simp only [unix_platform.download, unix_platform.build, unix_platform.download_cmd,
      unix_platform.tar_cmd, unix_platform.configure_cmd, unix_platform.make_cmd,
      unix_platform.make_install_cmd, unix_platform.cleanup_cmd, unix_platform.PORTAUDIO_URL,
      unix_platform.PORTAUDIO_TAR, unix_platform.PORTAUDIO_FOLDER]
    simp [exec, stepAct, cmdEffect, allOk, urlBasename_unix]
    simp [rmKeeps, rmTargets, isPrefixOf_self]
  · simp only [linux_platform.download, linux_platform.build, linux_platform.download_cmd,
      unix_platform.build, unix_platform.tar_cmd, unix_platform.configure_cmd,
      unix_platform.make_cmd, unix_platform.make_install_cmd, unix_platform.cleanup_cmd,
      unix_platform.PORTAUDIO_URL, unix_platform.PORTAUDIO_TAR, unix_platform.PORTAUDIO_FOLDER]
    simp [exec, stepAct, cmdEffect, allOk, urlBasename_unix]
    simp [rmKeeps, rmTargets, isPrefixOf_self]
  · simp only [windows_platform.download, windows_platform.build,
      windows_platform.download_cmd, windows_platform.untar_cmd,
      windows_platform.PORTAUDIO_DOWNLOAD_URL, windows_platform.PORTAUDIO_TAR,
      windows_platform.PORTAUDIO_LIB_DIR]
    simp [exec, stepAct, cmdEffect, allOk, urlBasename_win]
  · simp only [windows_platform.download, windows_platform.build,
      windows_platform.download_cmd, windows_platform.untar_cmd,
      windows_platform.PORTAUDIO_DOWNLOAD_URL, windows_platform.PORTAUDIO_TAR,
      windows_platform.PORTAUDIO_LIB_DIR]
    simp [exec, stepAct, cmdEffect, allOk]

/-- Claim C8: on linux the Linker-flag emitter prints nothing directly: it
is a single pkg-config resolution of the manifest the Builder installed at
`<out>/lib/pkgconfig/portaudio-2.0.pc`, and any resolution failure aborts
the process with the resolver error. -/
theorem c8_linux_resolves_manifest (out : FsPath) (s : St) (ok : Cmd → Bool)
    (pc : FsPath → Option String) (m : String) :
    linux_platform.print_libs out = [.pkgcResolve true (linux_platform.pc_file out)]
    ∧ (linux_platform.print_libs out).all (fun a => !a.isEmit) = true
    ∧ (pc (linux_platform.pc_file out) = some m →
        exec ok pc s (linux_platform.print_libs out) =
          ⟨[.pkgcResolve true (linux_platform.pc_file out)], s, some m⟩) := by
  refine ⟨rfl, rfl, fun h => ?_⟩
  simp [linux_platform.print_libs, exec, stepAct, h]

theorem c8_witness :
    linux_platform.print_libs ["o"] = [.pkgcResolve true (linux_platform.pc_file ["o"])]
    ∧ (linux_platform.print_libs ["o"]).all (fun a => !a.isEmit) = true
    ∧ (resolveFails (linux_platform.pc_file ["o"]) = some "portaudio-2.0.pc not found" →
        exec allOk resolveFails ⟨["w"], []⟩ (linux_platform.print_libs ["o"]) =
          ⟨[.pkgcResolve true (linux_platform.pc_file ["o"])], ⟨["w"], []⟩,
           some "portaudio-2.0.pc not found"⟩) :=
  c8_linux_resolves_manifest ["o"] ⟨["w"], []⟩ allOk resolveFails "portaudio-2.0.pc not found"

/-- Claim C9 counterexample: the windows emitter prints a directive
directly, but that directive is only a search path — it never mentions the
static library link flag, unlike the macOS emitter line. -/
theorem c9_counterexample :
    windows_platform.print_libs ["o"] = [.emit "cargo:rustc-link-search=o/portaudio"]
    ∧ mentionsStaticLib "cargo:rustc-link-search=o/portaudio" = false
    ∧ mentionsStaticLib (unix_platform.flag_string ["o"]) = true := by
  refine ⟨by decide, by decide, by decide⟩

/-- Claim C9 (amended): of the platforms whose emitter prints directives
directly, macOS prints one line carrying the native search path, the static
library name, and the five framework names, while windows prints only a
link-search directive with no static library name. -/
theorem c9_direct_emitters (out : FsPath) :
    unix_platform.print_libs out =
      [.emit ("cargo:rustc-flags=-L native=" ++ renderPath out ++
        ("/lib " ++ flag_static ++ " " ++ framework_flag_string))]
    ∧ windows_platform.print_libs out =
      [.emit ("cargo:rustc-link-search=" ++ renderPath out ++ "/" ++
        windows_platform.PORTAUDIO_LIB_DIR)]
    ∧ mentionsStaticLib (unix_platform.flag_string ["o"]) = true
    ∧ mentionsStaticLib ("cargo:rustc-link-search=" ++ renderPath ["o"] ++ "/" ++
        windows_platform.PORTAUDIO_LIB_DIR) = false := by
  exact ⟨rfl, rfl, by decide, by decide⟩

/-- Claim C10: on source-archive platforms, if the configure, make, or make
install subprocess fails after the Builder has changed into the extracted
source directory, the process aborts with the working directory still the
extracted source directory: no restore to the original directory, no
cleanup command run, the extracted tree (and anything previously on disk,
the archive included) left in place. -/
theorem c10_failure_strands_cwd (ok : Cmd → Bool) (pc : FsPath → Option String)
    (out cwd0 : FsPath) (fs0 : List FsPath)
    (htar : ok unix_platform.tar_cmd = true) :
    (ok (unix_platform.configure_cmd out) = false →
      exec ok pc ⟨cwd0, fs0⟩ (unix_platform.build out) =
        ⟨[.runCmd unix_platform.tar_cmd,
          .chdir (.rel unix_platform.PORTAUDIO_FOLDER),
          .runCmd (unix_platform.configure_cmd out)],
         ⟨cwd0 ++ [unix_platform.PORTAUDIO_FOLDER],
          (cwd0 ++ [unix_platform.PORTAUDIO_FOLDER]) :: fs0⟩,
         some (runFailMsg (unix_platform.configure_cmd out))⟩)
    ∧ (ok (unix_platform.configure_cmd out) = true → ok unix_platform.make_cmd = false →
        exec ok pc ⟨cwd0, fs0⟩ (unix_platform.build out) =
          ⟨[.runCmd unix_platform.tar_cmd,
            .chdir (.rel unix_platform.PORTAUDIO_FOLDER),
            .runCmd (unix_platform.configure_cmd out),
            .runCmd unix_platform.make_cmd],
           ⟨cwd0 ++ [unix_platform.PORTAUDIO_FOLDER],
            (cwd0 ++ [unix_platform.PORTAUDIO_FOLDER]) :: fs0⟩,
           some (runFailMsg unix_platform.make_cmd)⟩)
    ∧ (ok (unix_platform.configure_cmd out) = true → ok unix_platform.make_cmd = true →
        ok unix_platform.make_install_cmd = false →
        exec ok pc ⟨cwd0, fs0⟩ (unix_platform.build out) =
          ⟨[.runCmd unix_platform.tar_cmd,
            .chdir (.rel unix_platform.PORTAUDIO_FOLDER),
            .runCmd (unix_platform.configure_cmd out),
            .runCmd unix_platform.make_cmd,
            .runCmd unix_platform.make_install_cmd],
           ⟨cwd0 ++ [unix_platform.PORTAUDIO_FOLDER],
            (cwd0 ++ [unix_platform.PORTAUDIO_FOLDER]) :: fs0⟩,
           some (runFailMsg unix_platform.make_install_cmd)⟩)
    ∧ cwd0 ++ [unix_platform.PORTAUDIO_FOLDER] ≠ cwd0 := by
  refine ⟨fun h1 => ?_, fun h1 h2 => ?_, fun h1 h2 h3 => ?_, fun h => ?_⟩
  · simp only [unix_platform.build, unix_platform.tar_cmd, unix_platform.configure_cmd,
      unix_platform.make_cmd, unix_platform.make_install_cmd, unix_platform.cleanup_cmd,
      unix_platform.PORTAUDIO_FOLDER, unix_platform.PORTAUDIO_TAR] at htar h1 ⊢
    simp [exec, stepAct, cmdEffect, htar, h1,
      unix_platform.PORTAUDIO_FOLDER, unix_platform.PORTAUDIO_TAR]
  · simp only [unix_platform.build, unix_platform.tar_cmd, unix_platform.configure_cmd,
      unix_platform.make_cmd, unix_platform.make_install_cmd, unix_platform.cleanup_cmd,
      unix_platform.PORTAUDIO_FOLDER, unix_platform.PORTAUDIO_TAR] at htar h1 h2 ⊢
    simp [exec, stepAct, cmdEffect, htar, h1, h2,
      unix_platform.PORTAUDIO_FOLDER, unix_platform.PORTAUDIO_TAR]
  · simp only [unix_platform.build, unix_platform.tar_cmd, unix_platform.configure_cmd,
      unix_platform.make_cmd, unix_platform.make_install_cmd, unix_platform.cleanup_cmd,
      unix_platform.PORTAUDIO_FOLDER, unix_platform.PORTAUDIO_TAR] at htar h1 h2 h3 ⊢
    simp [exec, stepAct, cmdEffect, htar, h1, h2, h3,
      unix_platform.PORTAUDIO_FOLDER, unix_platform.PORTAUDIO_TAR]
  · have h2 := congrArg List.length h
    simp at h2

theorem c10_witness :
    exec configureFails noneResolve ⟨["w"], []⟩ (unix_platform.build ["o"]) =
      ⟨[.runCmd unix_platform.tar_cmd,
        .chdir (.rel unix_platform.PORTAUDIO_FOLDER),
        .runCmd (unix_platform.configure_cmd ["o"])],
       ⟨["w"] ++ [unix_platform.PORTAUDIO_FOLDER],
        (["w"] ++ [unix_platform.PORTAUDIO_FOLDER]) :: ([] : List FsPath)⟩,
       some (runFailMsg (unix_platform.configure_cmd ["o"]))⟩ :=
  (c10_failure_strands_cwd configureFails noneResolve ["o"] ["w"] [] (by decide)).1 (by decide)

theorem c2_witness :
    (detectorSucceeds .macos ⟨false, true, ["x"]⟩ ["w"] []
      && acquirerBuilderRuns .macos ⟨false, true, ["x"]⟩ ["w"] []) = false
    ∧ acquirerBuilderRuns .macos ⟨false, true, ["x"]⟩ ["w"] [] =
        (!detectorSucceeds .macos ⟨false, true, ["x"]⟩ ["w"] []
          && !List.contains [] (static_lib ["x"])) :=
  c2_exclusive_choice .macos ⟨false, true, ["x"]⟩ ["w"] []

theorem c4_witness :
    static_lib ["x"] = builder_artifact .macos ["x"]
    ∧ static_lib ["x"] = builder_artifact .linux ["x"]
    ∧ static_lib ["x"] ≠ builder_artifact .windows ["x"] :=
  c4_marker_vs_artifact ["x"]

theorem c7_witness :
    (["w"] ++ [unix_platform.PORTAUDIO_TAR]) ∉
      (exec allOk noneResolve ⟨["w"], []⟩
        (unix_platform.download ++ unix_platform.build ["x"])).state.fs
    ∧ (["w"] ++ [unix_platform.PORTAUDIO_TAR]) ∉
      (exec allOk noneResolve ⟨["w"], []⟩
        (linux_platform.download ++ linux_platform.build ["x"])).state.fs
    ∧ (["x"] ++ [windows_platform.PORTAUDIO_TAR]) ∈
      (exec allOk noneResolve ⟨["w"], []⟩
        (windows_platform.download ++ windows_platform.build ["w"] ["x"])).state.fs
    ∧ (exec allOk noneResolve ⟨["w"], []⟩
        (windows_platform.download ++ windows_platform.build ["w"] ["x"])).panicMsg = none :=
  c7_archive_transient noneResolve ["w"] ["x"] []

theorem c9_witness :
    unix_platform.print_libs ["x"] =
      [.emit ("cargo:rustc-flags=-L native=" ++ renderPath ["x"] ++
        ("/lib " ++ flag_static ++ " " ++ framework_flag_string))]
    ∧ windows_platform.print_libs ["x"] =
      [.emit ("cargo:rustc-link-search=" ++ renderPath ["x"] ++ "/" ++
        windows_platform.PORTAUDIO_LIB_DIR)]
    ∧ mentionsStaticLib (unix_platform.flag_string ["o"]) = true
    ∧ mentionsStaticLib ("cargo:rustc-link-search=" ++ renderPath ["o"] ++ "/" ++
        windows_platform.PORTAUDIO_LIB_DIR) = false :=
  c9_direct_emitters ["x"]
